import Mathlib

/-!
Verification of the default-branch resolver in `src/main.rs` of
mono0x/git-default-branch.

The program is shallowly embedded: `run` models the Rust function
`run(path, remote)`, `mainRun` models `main`.  Repository state is a
list of named references; the environment (`World`) carries the result
of `gix::discover` and the information the external
`git remote set-head <remote> --auto` invocation would use.  `run`
additionally returns the post-state and a trace of the reference
lookups and external command invocations it performed, in order, so
that claims about retry counts, probe order and side effects can be
stated.
-/

deriving instance DecidableEq for Except

/-- A byte string as handled by `gix` (`BStr`): either bytes that decode
as UTF-8 to a Lean `String`, or bytes that are not valid UTF-8.  This
models exactly the observable contract of Rust's `<&BStr>::to_str`,
which succeeds precisely on valid UTF-8. -/
inductive BStr where
  | utf8 (s : String)
  | invalid (bytes : List Nat)
deriving DecidableEq

/-- `to_str` on a `BStr`: `Ok` exactly on valid UTF-8 bytes. -/
def BStr.toStr : BStr → Option String
  | .utf8 s => some s
  | .invalid _ => none

/-- The target of a Git reference: a direct object id, or a symbolic
reference naming another reference (`gix`'s `TargetRef`).
`try_name()` returns the name exactly in the symbolic case. -/
inductive RefTarget where
  | direct (oid : String)
  | symbolic (name : BStr)
deriving DecidableEq

/-- A repository as the resolver observes it: its reference store, a
finite association of full reference names to targets. -/
structure Repo where
  refs : List (String × RefTarget)
deriving DecidableEq

/-- First-match association lookup, the semantics of
`repo.find_reference(name)` restricted to what the program observes:
`some` when the reference exists, `none` when it does not. -/
def lookupRef : List (String × RefTarget) → String → Option RefTarget
  | [], _ => none
  | (k, v) :: rest, name => if k = name then some v else lookupRef rest name

/-- `repo.find_reference(name)`, as an `Option` over the embedded store. -/
def Repo.findRef (repo : Repo) (name : String) : Option RefTarget :=
  lookupRef repo.refs name

/-- Replace (or insert) the binding of `name` in the reference store.
Since `lookupRef` is first-match, prepending overrides any older
binding of the same name. -/
def Repo.setRef (repo : Repo) (name : String) (t : RefTarget) : Repo :=
  ⟨(name, t) :: repo.refs⟩

/-- The environment of one invocation: the result of `gix::discover(path)`
(`none` when no repository is found at or above the path), and, for the
external refresh, the default branch each configured remote would
report (`none` when the remote is missing or unreachable, in which case
the external command fails and writes nothing). -/
structure World where
  discovered : Option Repo
  remoteDefaults : List (String × String)
deriving DecidableEq

/-- First-match lookup in the remote-defaults table. -/
def lookupDefault : List (String × String) → String → Option String
  | [], _ => none
  | (k, v) :: rest, name => if k = name then some v else lookupDefault rest name

/-- The full reference name `refs/remotes/<remote>/HEAD` built by the
two `format!` calls in `run`. -/
def headRef (remote : String) : String := "refs/remotes/" ++ remote ++ "/HEAD"

/-- Rust's `str::strip_prefix` on the character level: for valid UTF-8
strings a byte-level prefix is exactly a character-level prefix. -/
def dropPre : List Char → List Char → Option (List Char)
  | [], s => some s
  | _ :: _, [] => none
  | p :: ps, c :: cs => if p = c then dropPre ps cs else none

/-- `s.strip_prefix(p)`: `some` remainder when `p` is a prefix of `s`. -/
def stripPfx (p s : String) : Option String :=
  (dropPre p.data s.data).map String.mk

/-- The body shared by the two identical lookup blocks of `run`
(lines 30-39 and 46-55 of `src/main.rs`): given the found reference's
target, fail if it is not symbolic, decode its name (failing on invalid
UTF-8; the exact text of Rust's `Utf8Error` display is abstracted to a
fixed message), strip the literal prefix `"refs/remotes/origin/"` that
the source hardcodes, and return the remainder. -/
def resolveHead (t : RefTarget) : Except String String :=
  match t with
  | .direct _ => .error "HEAD is not symbolic"
  | .symbolic n =>
    match n.toStr with
    | none => .error "invalid utf-8 sequence"
    | some s =>
      match stripPfx "refs/remotes/origin/" s with
      | none => .error "Invalid ref format"
      | some rest => .ok rest

/-- Modelled from the spec: the external invocation
`git remote set-head <remote> --auto` (lines 41-44 of `src/main.rs`
shell out to the Git binary, whose code is not part of this
repository).  Per the spec it asks the remote tracking mechanism to
auto-detect and write `refs/remotes/<remote>/HEAD`; when the remote's
default branch is known it writes the symbolic reference
`refs/remotes/<remote>/<branch>` there, and when the command fails
(no such remote, unreachable) it writes nothing. -/
def setHeadAuto (defaults : List (String × String)) (repo : Repo) (remote : String) : Repo :=
  match lookupDefault defaults remote with
  | none => repo
  | some d =>
      repo.setRef (headRef remote)
        (.symbolic (.utf8 ("refs/remotes/" ++ remote ++ "/" ++ d)))

/-- One observable step of the resolver: a repository discovery, a
reference lookup by full name, or an external command invocation. -/
inductive Event where
  | discover
  | findRef (name : String)
  | execGit (args : List String)
deriving DecidableEq

/-- Count occurrences of an event in a trace. -/
def countEv (e : Event) : List Event → Nat
  | [] => 0
  | x :: rest => (if x = e then 1 else 0) + countEv e rest

/-- The outcome of `run`: its `Result`, the repository state it leaves
behind, and the ordered trace of lookups and external invocations. -/
structure RunOut where
  result : Except String String
  world : World
  trace : List Event
deriving DecidableEq

/-- The fallback probe at the end of `run`:
`["main", "master"].iter().find(|name| repo.find_reference(...).is_ok())`.
`find` is short-circuiting, so `refs/heads/master` is only probed when
`refs/heads/main` is absent. -/
def fallbackProbe (repo : Repo) : Except String String × List Event :=
  if (repo.findRef "refs/heads/main").isSome then
    (.ok "main", [.findRef "refs/heads/main"])
  else if (repo.findRef "refs/heads/master").isSome then
    (.ok "master", [.findRef "refs/heads/main", .findRef "refs/heads/master"])
  else
    (.error "Could not determine default branch",
      [.findRef "refs/heads/main", .findRef "refs/heads/master"])

/-- The embedded `run(path, remote)` of `src/main.rs`.  The `path`
argument is folded into the `World`: `w.discovered` is the result of
`gix::discover(path)` (the display text of gix's discovery error is
abstracted to a fixed message).  Steps, in source order: discover;
first lookup of `refs/remotes/<remote>/HEAD` and, if found, resolve
it; otherwise run the external refresh ignoring its outcome, look the
reference up a second time and, if found, resolve it; otherwise probe
`refs/heads/main` then `refs/heads/master`. -/
def run (w : World) (remote : String) : RunOut :=
  match w.discovered with
  | none => ⟨.error "could not find a git repository", w, [.discover]⟩
  | some repo =>
    match repo.findRef (headRef remote) with
    | some t => ⟨resolveHead t, w, [.discover, .findRef (headRef remote)]⟩
    | none =>
      let repo2 := setHeadAuto w.remoteDefaults repo remote
      let w2 : World := ⟨some repo2, w.remoteDefaults⟩
      let pre : List Event :=
        [.discover, .findRef (headRef remote),
         .execGit ["remote", "set-head", remote, "--auto"],
         .findRef (headRef remote)]
      match repo2.findRef (headRef remote) with
      | some t => ⟨resolveHead t, w2, pre⟩
      | none =>
        let p := fallbackProbe repo2
        ⟨p.1, w2, pre ++ p.2⟩

/-- What one process invocation writes and how it exits: `main` of
`src/main.rs`.  `println!` appends a newline on stdout and the process
exits 0; `eprintln!` appends a newline on stderr and
`process::exit(1)` is called. -/
structure ProcOutcome where
  stdout : String
  stderr : String
  exitCode : Nat
deriving DecidableEq

/-- The embedded `main`: dispatch on `run`'s result. -/
def mainRun (w : World) (remote : String) : ProcOutcome :=
  match (run w remote).result with
  | .ok branch => ⟨branch ++ "\n", "", 0⟩
  | .error e => ⟨"", e ++ "\n", 1⟩

/-- The repository state left behind by `run` at a given reference
name, `none` when discovery failed or the reference is absent. -/
def refAt (w : World) (name : String) : Option RefTarget :=
  w.discovered.bind (fun r => r.findRef name)

-- Sanity checks on concrete repositories (cloned repo; fresh repos).
example :
    (run ⟨some ⟨[("refs/remotes/origin/HEAD",
        .symbolic (.utf8 "refs/remotes/origin/default"))]⟩, []⟩ "origin").result
      = .ok "default" := by decide

example :
    (run ⟨some ⟨[("refs/heads/main", .direct "abc")]⟩, []⟩ "origin").result
      = .ok "main" := by decide

example :
    (run ⟨some ⟨[("refs/heads/master", .direct "abc")]⟩, []⟩ "origin").result
      = .ok "master" := by decide

example :
    (run ⟨some ⟨[]⟩, []⟩ "origin").result
      = .error "Could not determine default branch" := by decide

/-! ## Helper lemmas -/

theorem headRef_ne_main (remote : String) : "refs/heads/main" ≠ headRef remote := by
  intro h
  have hlen := congrArg String.length h
  rw [headRef, String.length_append, String.length_append] at hlen
  have h1 : ("refs/heads/main" : String).length = 15 := rfl
  have h2 : ("refs/remotes/" : String).length = 13 := rfl
  have h3 : ("/HEAD" : String).length = 5 := rfl
  rw [h1, h2, h3] at hlen
  omega

theorem headRef_ne_master (remote : String) : "refs/heads/master" ≠ headRef remote := by
  intro h
  have hlen := congrArg String.length h
  rw [headRef, String.length_append, String.length_append] at hlen
  have h1 : ("refs/heads/master" : String).length = 17 := rfl
  have h2 : ("refs/remotes/" : String).length = 13 := rfl
  have h3 : ("/HEAD" : String).length = 5 := rfl
  rw [h1, h2, h3] at hlen
  omega

theorem findRef_setRef_ne (repo : Repo) (n m : String) (t : RefTarget) (h : m ≠ n) :
    (repo.setRef n t).findRef m = repo.findRef m := by
  unfold Repo.setRef Repo.findRef
  simp [lookupRef, Ne.symm h]

theorem setHeadAuto_preserves (defaults : List (String × String)) (repo : Repo)
    (remote name : String) (h : name ≠ headRef remote) :
    (setHeadAuto defaults repo remote).findRef name = repo.findRef name := by
  unfold setHeadAuto
  cases lookupDefault defaults remote with
  | none => rfl
  | some d => exact findRef_setRef_ne _ _ _ _ h

theorem setHeadAuto_of_no_default (defaults : List (String × String)) (repo : Repo)
    (remote : String) (h : lookupDefault defaults remote = none) :
    setHeadAuto defaults repo remote = repo := by
  unfold setHeadAuto
  rw [h]

/-! ## Claim theorems -/

/-- C1, counterexample: with remote `"upstream"` and a well-formed
remote-tracking HEAD `refs/remotes/upstream/HEAD` pointing symbolically
at `refs/remotes/upstream/main`, the claim predicts that the prefix
`refs/remotes/upstream/` is stripped and `"main"` returned; the program
instead fails with `Invalid ref format`, because it strips the
hardcoded literal `refs/remotes/origin/`. -/
theorem c1_counterexample :
    (Repo.findRef ⟨[("refs/remotes/upstream/HEAD",
          .symbolic (.utf8 "refs/remotes/upstream/main"))]⟩ (headRef "upstream"))
        = some (.symbolic (.utf8 "refs/remotes/upstream/main"))
    ∧ stripPfx ("refs/remotes/" ++ "upstream" ++ "/") "refs/remotes/upstream/main"
        = some "main"
    ∧ (run ⟨some ⟨[("refs/remotes/upstream/HEAD",
          .symbolic (.utf8 "refs/remotes/upstream/main"))]⟩, []⟩ "upstream").result
        ≠ .ok "main"
    ∧ (run ⟨some ⟨[("refs/remotes/upstream/HEAD",
          .symbolic (.utf8 "refs/remotes/upstream/main"))]⟩, []⟩ "upstream").result
        = .error "Invalid ref format" := by
  refine ⟨by decide, by decide, by decide, by decide⟩

/-- C1, amended: when `refs/remotes/<remote>/HEAD` is found and is a
symbolic reference with a valid-UTF-8 target name, the resolver strips
the literal prefix `refs/remotes/origin/` — independent of the
caller-supplied remote name — and returns the remainder as the branch
name. -/
theorem c1_strips_origin_literal (w : World) (repo : Repo) (remote s rest : String)
    (hdisc : w.discovered = some repo)
    (hfind : repo.findRef (headRef remote) = some (.symbolic (.utf8 s)))
    (hstrip : stripPfx "refs/remotes/origin/" s = some rest) :
    (run w remote).result = .ok rest := by
  simp [run, hdisc, hfind, resolveHead, BStr.toStr, hstrip]

theorem c1_strips_origin_literal_witness :
    ((⟨some ⟨[("refs/remotes/origin/HEAD",
          .symbolic (.utf8 "refs/remotes/origin/dev"))]⟩, []⟩ : World).discovered
        = some ⟨[("refs/remotes/origin/HEAD", .symbolic (.utf8 "refs/remotes/origin/dev"))]⟩)
    ∧ stripPfx "refs/remotes/origin/" "refs/remotes/origin/dev" = some "dev"
    ∧ (run ⟨some ⟨[("refs/remotes/origin/HEAD",
          .symbolic (.utf8 "refs/remotes/origin/dev"))]⟩, []⟩ "origin").result
        = .ok "dev" :=
  ⟨rfl, by decide,
    c1_strips_origin_literal _ _ "origin" "refs/remotes/origin/dev" "dev"
      rfl (by decide) (by decide)⟩

/-- C4, counterexample: in a repository with no remote-tracking HEAD, no
remote to refresh from, and no `main`/`master` branch, resolution fails,
but the message is `"Could not determine default branch"` (capital C),
not the claimed `"could not determine default branch"`. -/
theorem c4_counterexample :
    (run ⟨some ⟨[]⟩, []⟩ "origin").result = .error "Could not determine default branch"
    ∧ (run ⟨some ⟨[]⟩, []⟩ "origin").result ≠ .error "could not determine default branch" := by
  refine ⟨by decide, by decide⟩

/-- C4, amended: for every repository with neither a resolvable
remote-tracking HEAD (before or after the refresh) nor a
`refs/heads/main` nor a `refs/heads/master` reference, resolution fails
and the error message is `"Could not determine default branch"`. -/
theorem c4_no_default_branch (w : World) (repo : Repo) (remote : String)
    (hdisc : w.discovered = some repo)
    (hmiss : repo.findRef (headRef remote) = none)
    (hmiss2 : (setHeadAuto w.remoteDefaults repo remote).findRef (headRef remote) = none)
    (hmain : (setHeadAuto w.remoteDefaults repo remote).findRef "refs/heads/main" = none)
    (hmaster : (setHeadAuto w.remoteDefaults repo remote).findRef "refs/heads/master" = none) :
    (run w remote).result = .error "Could not determine default branch" := by
  simp [run, hdisc, hmiss, hmiss2, fallbackProbe, hmain, hmaster]

theorem c4_no_default_branch_witness :
    ((⟨some ⟨[]⟩, []⟩ : World).discovered = some ⟨[]⟩)
    ∧ Repo.findRef ⟨[]⟩ (headRef "origin") = none
    ∧ (setHeadAuto [] ⟨[]⟩ "origin").findRef (headRef "origin") = none
    ∧ (setHeadAuto [] ⟨[]⟩ "origin").findRef "refs/heads/main" = none
    ∧ (setHeadAuto [] ⟨[]⟩ "origin").findRef "refs/heads/master" = none
    ∧ (run ⟨some ⟨[]⟩, []⟩ "origin").result = .error "Could not determine default branch" :=
  ⟨rfl, rfl, rfl, rfl, rfl,
    c4_no_default_branch _ _ "origin" rfl rfl rfl rfl rfl⟩

/-- C10: if `refs/remotes/origin/HEAD` is a symbolic reference whose
target name is exactly `refs/remotes/origin/`, the resolver returns the
empty branch name and the process prints just a newline and exits 0. -/
theorem c10_empty_branch_name :
    (run ⟨some ⟨[("refs/remotes/origin/HEAD",
          .symbolic (.utf8 "refs/remotes/origin/"))]⟩, []⟩ "origin").result = .ok ""
    ∧ mainRun ⟨some ⟨[("refs/remotes/origin/HEAD",
          .symbolic (.utf8 "refs/remotes/origin/"))]⟩, []⟩ "origin"
        = ⟨"\n", "", 0⟩ := by
  refine ⟨by decide, by decide⟩

/-- C5, counterexample: with remote `"upstream"`, a symbolic
`refs/remotes/upstream/HEAD` whose target name `refs/remotes/origin/main`
does not carry the expected remote-tracking prefix
`refs/remotes/upstream/`, resolution nevertheless succeeds with
`"main"`, because the program checks the hardcoded literal
`refs/remotes/origin/` instead. -/
theorem c5_counterexample :
    stripPfx ("refs/remotes/" ++ "upstream" ++ "/") "refs/remotes/origin/main" = none
    ∧ (run ⟨some ⟨[("refs/remotes/upstream/HEAD",
          .symbolic (.utf8 "refs/remotes/origin/main"))]⟩, []⟩ "upstream").result
        = .ok "main" := by
  refine ⟨by decide, by decide⟩

/-- C5, amended: when `refs/remotes/<remote>/HEAD` is found but its
target is not symbolic, or its name is not valid UTF-8, or its name
does not carry the literal prefix `refs/remotes/origin/` (the prefix
the program checks, independent of the caller-supplied remote name),
resolution fails with a descriptive error rather than returning a
branch name. -/
theorem c5_bad_target_fails (w : World) (repo : Repo) (remote : String) (t : RefTarget)
    (hdisc : w.discovered = some repo)
    (hfind : repo.findRef (headRef remote) = some t)
    (hbad : (∃ oid, t = .direct oid)
      ∨ (∃ bs, t = .symbolic (.invalid bs))
      ∨ (∃ s, t = .symbolic (.utf8 s) ∧ stripPfx "refs/remotes/origin/" s = none)) :
    ∃ e, (run w remote).result = .error e := by
  rcases hbad with ⟨oid, rfl⟩ | ⟨bs, rfl⟩ | ⟨s, rfl, hs⟩
  · exact ⟨"HEAD is not symbolic", by simp [run, hdisc, hfind, resolveHead]⟩
  · exact ⟨"invalid utf-8 sequence", by simp [run, hdisc, hfind, resolveHead, BStr.toStr]⟩
  · exact ⟨"Invalid ref format", by simp [run, hdisc, hfind, resolveHead, BStr.toStr, hs]⟩

theorem c5_bad_target_fails_witness :
    ((⟨some ⟨[("refs/remotes/origin/HEAD", .direct "0a1b")]⟩, []⟩ : World).discovered
        = some ⟨[("refs/remotes/origin/HEAD", .direct "0a1b")]⟩)
    ∧ Repo.findRef ⟨[("refs/remotes/origin/HEAD", .direct "0a1b")]⟩ (headRef "origin")
        = some (.direct "0a1b")
    ∧ ∃ e, (run ⟨some ⟨[("refs/remotes/origin/HEAD", .direct "0a1b")]⟩, []⟩ "origin").result
        = .error e :=
  ⟨rfl, by decide,
    c5_bad_target_fails _ _ "origin" (.direct "0a1b") rfl (by decide)
      (.inl ⟨"0a1b", rfl⟩)⟩

/-- C6: on success `main` prints exactly the resolved branch name and a
newline on standard output, nothing on standard error, and exits 0; on
failure it prints the error message (and newline) on standard error,
nothing on standard output, and exits 1. -/
theorem c6_cli_io (w : World) (remote : String) :
    (∀ b, (run w remote).result = .ok b →
        mainRun w remote = ⟨b ++ "\n", "", 0⟩)
    ∧ (∀ e, (run w remote).result = .error e →
        mainRun w remote = ⟨"", e ++ "\n", 1⟩) := by
  constructor <;> intro x h <;> simp [mainRun, h]

theorem c6_cli_io_witness :
    (run ⟨some ⟨[("refs/heads/main", .direct "0a1b")]⟩, []⟩ "origin").result = .ok "main"
    ∧ mainRun ⟨some ⟨[("refs/heads/main", .direct "0a1b")]⟩, []⟩ "origin"
        = ⟨"main" ++ "\n", "", 0⟩ :=
  ⟨by decide, (c6_cli_io ⟨some ⟨[("refs/heads/main", .direct "0a1b")]⟩, []⟩ "origin").1
    "main" (by decide)⟩

/-- C7: when repository discovery fails, resolution fails immediately —
the trace holds the discovery alone, no reference lookup — and the
process leaves standard output empty and exits 1. -/
theorem c7_not_a_repository (w : World) (remote : String)
    (hdisc : w.discovered = none) :
    (∃ e, (run w remote).result = .error e)
    ∧ (run w remote).trace = [.discover]
    ∧ (mainRun w remote).stdout = ""
    ∧ (mainRun w remote).exitCode = 1 := by
  refine ⟨⟨"could not find a git repository", ?_⟩, ?_, ?_, ?_⟩ <;>
    simp [run, mainRun, hdisc]

theorem c7_not_a_repository_witness :
    ((⟨none, []⟩ : World).discovered = none)
    ∧ ((∃ e, (run ⟨none, []⟩ "origin").result = .error e)
      ∧ (run ⟨none, []⟩ "origin").trace = [.discover]
      ∧ (mainRun ⟨none, []⟩ "origin").stdout = ""
      ∧ (mainRun ⟨none, []⟩ "origin").exitCode = 1) :=
  ⟨rfl, c7_not_a_repository ⟨none, []⟩ "origin" rfl⟩

/-- C8: in a repository with no remote-tracking HEAD and no configured
remote to refresh it from (a freshly initialized repository), if the
branch `refs/heads/main` exists resolution returns `"main"`, and if
`refs/heads/main` is absent but `refs/heads/master` exists it returns
`"master"`. -/
theorem c8_fresh_repository (w : World) (repo : Repo) (remote branch : String)
    (hdisc : w.discovered = some repo)
    (hmiss : repo.findRef (headRef remote) = none)
    (hnoremote : lookupDefault w.remoteDefaults remote = none)
    (hbranch : (branch = "main" ∧ (repo.findRef "refs/heads/main").isSome)
      ∨ (branch = "master" ∧ repo.findRef "refs/heads/main" = none
          ∧ (repo.findRef "refs/heads/master").isSome)) :
    (run w remote).result = .ok branch := by
  have hsame := setHeadAuto_of_no_default w.remoteDefaults repo remote hnoremote
  rcases hbranch with ⟨rfl, hmain⟩ | ⟨rfl, hmain, hmaster⟩
  · simp [run, hdisc, hmiss, hsame, fallbackProbe, hmain]
  · simp [run, hdisc, hmiss, hsame, fallbackProbe, hmain, hmaster]

theorem c8_fresh_repository_witness :
    ((⟨some ⟨[("refs/heads/master", .direct "0a1b")]⟩, []⟩ : World).discovered
        = some ⟨[("refs/heads/master", .direct "0a1b")]⟩)
    ∧ Repo.findRef ⟨[("refs/heads/master", .direct "0a1b")]⟩ (headRef "origin") = none
    ∧ lookupDefault [] "origin" = none
    ∧ Repo.findRef ⟨[("refs/heads/master", .direct "0a1b")]⟩ "refs/heads/main" = none
    ∧ (Repo.findRef ⟨[("refs/heads/master", .direct "0a1b")]⟩ "refs/heads/master").isSome
    ∧ (run ⟨some ⟨[("refs/heads/master", .direct "0a1b")]⟩, []⟩ "origin").result
        = .ok "master" :=
  ⟨rfl, by decide, rfl, by decide, by decide,
    c8_fresh_repository _ _ "origin" "master" rfl (by decide) rfl
      (.inr ⟨rfl, by decide, by decide⟩)⟩

/-- C2: whenever the first lookup of `refs/remotes/<remote>/HEAD` does
not find the reference, the trace of the whole resolution holds exactly
one invocation of `git remote set-head <remote> --auto` and exactly two
lookups of that reference (the initial one and the single retry) —
whatever the refresh's outcome, which the program discards. -/
theorem c2_refresh_and_retry_once (w : World) (repo : Repo) (remote : String)
    (hdisc : w.discovered = some repo)
    (hmiss : repo.findRef (headRef remote) = none) :
    countEv (.execGit ["remote", "set-head", remote, "--auto"]) (run w remote).trace = 1
    ∧ countEv (.findRef (headRef remote)) (run w remote).trace = 2 := by
  have hm := headRef_ne_main remote
  have hms := headRef_ne_master remote
  simp only [run, hdisc, hmiss]
  cases hh : (setHeadAuto w.remoteDefaults repo remote).findRef (headRef remote) with
  | some t => simp [countEv, hm, hms]
  | none =>
    unfold fallbackProbe
    by_cases h1 : ((setHeadAuto w.remoteDefaults repo remote).findRef "refs/heads/main").isSome <;>
      by_cases h2 :
          ((setHeadAuto w.remoteDefaults repo remote).findRef "refs/heads/master").isSome <;>
        simp [h1, h2, countEv, hm, hms]

theorem c2_refresh_and_retry_once_witness :
    ((⟨some ⟨[]⟩, []⟩ : World).discovered = some ⟨[]⟩)
    ∧ Repo.findRef ⟨[]⟩ (headRef "origin") = none
    ∧ countEv (.execGit ["remote", "set-head", "origin", "--auto"])
        (run ⟨some ⟨[]⟩, []⟩ "origin").trace = 1
    ∧ countEv (.findRef (headRef "origin")) (run ⟨some ⟨[]⟩, []⟩ "origin").trace = 2 :=
  ⟨rfl, rfl,
    (c2_refresh_and_retry_once ⟨some ⟨[]⟩, []⟩ ⟨[]⟩ "origin" rfl rfl).1,
    (c2_refresh_and_retry_once ⟨some ⟨[]⟩, []⟩ ⟨[]⟩ "origin" rfl rfl).2⟩

/-- C3: when the remote-tracking HEAD is still not found after the
refresh-and-retry, the resolver probes `refs/heads/main` first — and
returns `"main"` without touching `refs/heads/master` when it exists —
and probes `refs/heads/master` second, returning `"master"` when only
it exists; the trace records exactly these probes in that order. -/
theorem c3_probe_main_then_master (w : World) (repo : Repo) (remote : String)
    (hdisc : w.discovered = some repo)
    (hmiss : repo.findRef (headRef remote) = none)
    (hmiss2 : (setHeadAuto w.remoteDefaults repo remote).findRef (headRef remote) = none) :
    (((setHeadAuto w.remoteDefaults repo remote).findRef "refs/heads/main").isSome →
        (run w remote).result = .ok "main"
        ∧ (run w remote).trace
            = [.discover, .findRef (headRef remote),
               .execGit ["remote", "set-head", remote, "--auto"],
               .findRef (headRef remote), .findRef "refs/heads/main"])
    ∧ ((setHeadAuto w.remoteDefaults repo remote).findRef "refs/heads/main" = none →
        ((setHeadAuto w.remoteDefaults repo remote).findRef "refs/heads/master").isSome →
          (run w remote).result = .ok "master"
          ∧ (run w remote).trace
              = [.discover, .findRef (headRef remote),
                 .execGit ["remote", "set-head", remote, "--auto"],
                 .findRef (headRef remote), .findRef "refs/heads/main",
                 .findRef "refs/heads/master"]) := by
  constructor
  · intro hmain
    simp [run, hdisc, hmiss, hmiss2, fallbackProbe, hmain]
  · intro hmain hmaster
    simp [run, hdisc, hmiss, hmiss2, fallbackProbe, hmain, hmaster]

theorem c3_probe_main_then_master_witness :
    ((⟨some ⟨[("refs/heads/main", .direct "0a1b")]⟩, []⟩ : World).discovered
        = some ⟨[("refs/heads/main", .direct "0a1b")]⟩)
    ∧ Repo.findRef ⟨[("refs/heads/main", .direct "0a1b")]⟩ (headRef "origin") = none
    ∧ (setHeadAuto [] ⟨[("refs/heads/main", .direct "0a1b")]⟩ "origin").findRef
        (headRef "origin") = none
    ∧ ((setHeadAuto [] ⟨[("refs/heads/main", .direct "0a1b")]⟩ "origin").findRef
        "refs/heads/main").isSome
    ∧ (run ⟨some ⟨[("refs/heads/main", .direct "0a1b")]⟩, []⟩ "origin").result = .ok "main"
    ∧ (run ⟨some ⟨[("refs/heads/main", .direct "0a1b")]⟩, []⟩ "origin").trace
        = [.discover, .findRef (headRef "origin"),
           .execGit ["remote", "set-head", "origin", "--auto"],
           .findRef (headRef "origin"), .findRef "refs/heads/main"] :=
  ⟨rfl, by decide, by decide, by decide,
    ((c3_probe_main_then_master _ _ "origin" rfl (by decide) (by decide)).1 (by decide)).1,
    ((c3_probe_main_then_master _ _ "origin" rfl (by decide) (by decide)).1 (by decide)).2⟩

/-- C9, counterexample: in a repository with no remote-tracking HEAD
but a reachable remote `origin` whose default branch is `main`, running
the resolver creates the reference `refs/remotes/origin/HEAD` (through
the external `git remote set-head origin --auto` it invokes), so the
repository state after resolution differs from the state before. -/
theorem c9_counterexample :
    refAt ⟨some ⟨[]⟩, [("origin", "main")]⟩ (headRef "origin") = none
    ∧ (run ⟨some ⟨[]⟩, [("origin", "main")]⟩ "origin").world
        ≠ ⟨some ⟨[]⟩, [("origin", "main")]⟩
    ∧ refAt (run ⟨some ⟨[]⟩, [("origin", "main")]⟩ "origin").world (headRef "origin")
        = some (.symbolic (.utf8 "refs/remotes/origin/main")) := by
  refine ⟨by decide, by decide, by decide⟩

/-- C9, amended: the resolver never touches any repository entity other
than `refs/remotes/<remote>/HEAD`: the remote table and the presence of
the repository are preserved, and every reference whose name differs
from `refs/remotes/<remote>/HEAD` is unchanged after resolution,
whether it succeeds or fails. -/
theorem c9_frame (w : World) (remote name : String) (hname : name ≠ headRef remote) :
    (run w remote).world.remoteDefaults = w.remoteDefaults
    ∧ (run w remote).world.discovered.isSome = w.discovered.isSome
    ∧ refAt (run w remote).world name = refAt w name := by
  cases hd : w.discovered with
  | none => simp [run, hd]
  | some repo =>
    cases hh : repo.findRef (headRef remote) with
    | some t => simp [run, hd, hh]
    | none =>
      have hpres := setHeadAuto_preserves w.remoteDefaults repo remote name hname
      simp only [run, hd, hh]
      cases hh2 : (setHeadAuto w.remoteDefaults repo remote).findRef (headRef remote) with
      | some t => simp [refAt, hd, hpres]
      | none => simp [refAt, hd, hpres]

theorem c9_frame_witness :
    "refs/heads/main" ≠ headRef "origin"
    ∧ ((run ⟨some ⟨[]⟩, [("origin", "main")]⟩ "origin").world.remoteDefaults
        = [("origin", "main")]
      ∧ (run ⟨some ⟨[]⟩, [("origin", "main")]⟩ "origin").world.discovered.isSome
        = (some (⟨[]⟩ : Repo)).isSome
      ∧ refAt (run ⟨some ⟨[]⟩, [("origin", "main")]⟩ "origin").world "refs/heads/main"
        = refAt ⟨some ⟨[]⟩, [("origin", "main")]⟩ "refs/heads/main") :=
  ⟨by decide, c9_frame ⟨some ⟨[]⟩, [("origin", "main")]⟩ "origin" "refs/heads/main" (by decide)⟩
